import Mathlib

/-!
# OpenVoronoi: vertex positioner, solution filters

A shallow embedding of `src/vertex_positioner.hpp`: the `Solution` value type, the two
rejection predicates `t_filter` and `in_region_filter`, and the data members and observers of
`VertexPositioner`.

C++ `double` values are compared only with `<`, `>`, `<=`, `==` in this header.  Those
comparisons depend on nothing but the extended-real value denoted by the double, and on whether it
is a NaN, so a `double` is embedded as `Double`: a NaN, an infinity, or a finite value (every
finite double is a rational number; `+0` and `-0` denote the same value and compare equal).
-/

namespace ovd

/-! ## Doubles and their comparisons -/

/-- The value of a C++ `double`, as far as comparison operators can observe it. -/
inductive Double where
  | nan
  | ninf
  | fin (q : ℚ)
  | pinf
deriving DecidableEq

namespace Double

/-- The test `std::isnan`. -/
def isNaN : Double → Bool
  | nan => true
  | _ => false

/-- The operator `a < b` on doubles: false as soon as an operand is a NaN. -/
def lt (a b : Double) : Bool :=
  match a, b with
  | fin x, fin y => decide (x < y)
  | ninf, fin _ => true
  | ninf, pinf => true
  | fin _, pinf => true
  | _, _ => false

/-- The operator `a > b` on doubles, which is `b < a`. -/
def gt (a b : Double) : Bool := lt b a

/-- The operator `a == b` on doubles: false as soon as an operand is a NaN. -/
def eq (a b : Double) : Bool :=
  match a, b with
  | fin x, fin y => decide (x = y)
  | ninf, ninf => true
  | pinf, pinf => true
  | _, _ => false

/-- The operator `a <= b` on doubles: false as soon as an operand is a NaN. -/
def le (a b : Double) : Bool :=
  match a, b with
  | fin x, fin y => decide (x ≤ y)
  | ninf, ninf => true
  | ninf, fin _ => true
  | ninf, pinf => true
  | fin _, pinf => true
  | pinf, pinf => true
  | _, _ => false

end Double

/-! ## The data model -/

/-- The type `Point` of the geometry headers: a pair of doubles. -/
structure Point where
  x : Double
  y : Double
deriving DecidableEq

/-- The struct `Solution`: a new vd-vertex position, with the offset-distance `t` and the offset
direction `k3`. -/
structure Solution where
  p : Point
  t : Double
  k3 : Double
deriving DecidableEq

/-- The part of the class `Site` that this header uses: the member `in_region(p)`, a function of
the point alone. -/
structure Site where
  in_region : Point → Bool

/-- The struct `t_filter` with its two private members, set by the constructor
`t_filter(tmin, tmax)`. -/
structure t_filter where
  tmin_ : Double
  tmax_ : Double
deriving DecidableEq

/-- The struct `in_region_filter` with its private member, set by the constructor
`in_region_filter(s)`. -/
structure in_region_filter where
  site_ : Site

/-- The body of `t_filter::operator()(Solution s)` as a step on the state it can reach: the
returned `bool`, then the filter object and the (by-value) argument as they are on return.  The
body is the single statement `return (s.t<tmin_) || (s.t>tmax_);`. -/
def t_filter.run (self : t_filter) (s : Solution) : Bool × t_filter × Solution :=
  (Double.lt s.t self.tmin_ || Double.gt s.t self.tmax_, self, s)

/-- The verdict of `t_filter::operator()`: `true` rejects the Solution. -/
def t_filter.call (self : t_filter) (s : Solution) : Bool :=
  (self.run s).1

/-- The body of `in_region_filter::operator()(Solution s)` as a step on the state it can reach.
The body is the single statement `return !site_->in_region(s.p);`. -/
def in_region_filter.run (self : in_region_filter) (s : Solution) :
    Bool × in_region_filter × Solution :=
  (!self.site_.in_region s.p, self, s)

/-- The verdict of `in_region_filter::operator()`: `true` rejects the Solution. -/
def in_region_filter.call (self : in_region_filter) (s : Solution) : Bool :=
  (self.run s).1

/-! ## Filtering a candidate list -/

/-- A unary predicate object handed to `std::remove_if`: one of the two filter structs of the
header. -/
inductive Filter where
  | range (f : t_filter)
  | region (f : in_region_filter)

/-- The verdict of the predicate object on a Solution: `true` rejects it. -/
def Filter.call : Filter → Solution → Bool
  | Filter.range f, s => f.call s
  | Filter.region f, s => f.call s

/-- The erase-remove idiom `slns.erase(std::remove_if(slns.begin(), slns.end(), f), slns.end())`:
one pass that drops every Solution the predicate rejects and keeps the others in their relative
order. -/
def erase_remove_if (f : Filter) (slns : List Solution) : List Solution :=
  slns.filter (fun s => !f.call s)

/-- The filters of a sequence applied one after the other, each to what the preceding ones
kept. -/
def apply_filters (fs : List Filter) (slns : List Solution) : List Solution :=
  fs.foldl (fun acc f => erase_remove_if f acc) slns

/-- The sequence of filters "first `t_filter(tmin, tmax)`, then `in_region_filter` of each
site". -/
def filter_sequence (tmin tmax : Double) (sites : List Site) : List Filter :=
  Filter.range ⟨tmin, tmax⟩ :: sites.map (fun st => Filter.region ⟨st⟩)

/-- The filter object and the Solution after `n` successive applications of
`t_filter::operator()`. -/
def t_filter.after (self : t_filter) (s : Solution) : Nat → t_filter × Solution
  | 0 => (self, s)
  | n + 1 => ((self.after s n).1.run (self.after s n).2).2

/-- The filter object and the Solution after `n` successive applications of
`in_region_filter::operator()`. -/
def in_region_filter.after (self : in_region_filter) (s : Solution) :
    Nat → in_region_filter × Solution
  | 0 => (self, s)
  | n + 1 => ((self.after s n).1.run (self.after s n).2).2

/-! ## The positioner -/

/-- The abstract class `Solver`: its one virtual member `solve`. -/
structure Solver where
  solve : Site → Double → Site → Double → Site → Double → Solution

/-- The data members of the class `VertexPositioner`, in declaration order.  The diagram type
and the edge descriptor type `HEEdge` come from `graph.hpp` and are parameters here. -/
structure VertexPositioner (VoronoiDiagram HEEdge : Type) where
  ppp_solver : Solver
  vd : VoronoiDiagram
  t_min : Double
  t_max : Double
  k3 : Double
  edge : HEEdge
  errstat : List Double

/-- The member `double get_k3() const {return k3;}` as a step: the returned value and the
positioner on return. -/
def VertexPositioner.get_k3 {VD E : Type} (self : VertexPositioner VD E) :
    Double × VertexPositioner VD E :=
  (self.k3, self)

/-- The member `std::vector<double> get_stat() {return errstat;}` as a step: the returned copy
and the positioner on return. -/
def VertexPositioner.get_stat {VD E : Type} (self : VertexPositioner VD E) :
    List Double × VertexPositioner VD E :=
  (self.errstat, self)

/-! ## Concrete data -/

/-- The origin. -/
def origin : Point := ⟨Double.fin 0, Double.fin 0⟩

/-- A site whose region is the half plane `x >= 0`. -/
def site_right : Site := ⟨fun p => Double.le (Double.fin 0) p.x⟩

/-- A candidate at the origin whose offset is a NaN. -/
def sol_nan : Solution := ⟨origin, Double.nan, Double.fin 1⟩

/-- A candidate at the origin with offset `1`. -/
def sol_mid : Solution := ⟨origin, Double.fin 1, Double.fin 1⟩

/-- A candidate left of the origin with offset `3`. -/
def sol_left : Solution := ⟨⟨Double.fin (-1), Double.fin 0⟩, Double.fin 3, Double.fin 1⟩

/-! ## Basic facts on the comparisons -/

theorem Double.lt_nan_left (b : Double) : Double.lt Double.nan b = false := by
  cases b <;> rfl

theorem Double.lt_nan_right (a : Double) : Double.lt a Double.nan = false := by
  cases a <;> rfl

theorem Double.le_nan_left (b : Double) : Double.le Double.nan b = false := by
  cases b <;> rfl

theorem Double.le_nan_right (a : Double) : Double.le a Double.nan = false := by
  cases a <;> rfl

theorem Double.le_eq_lt_or_eq (a b : Double) :
    Double.le a b = (Double.lt a b || Double.eq a b) := by
  cases a <;> cases b <;> simp [Double.le, Double.lt, Double.eq]
  rename_i x y
  rw [← Bool.decide_or]
  exact decide_eq_decide.mpr le_iff_lt_or_eq

theorem Double.lt_self (a : Double) : Double.lt a a = false := by
  cases a <;> simp [Double.lt]

/-- On operands that are not NaN the order is total: `a < b` fails exactly when `b <= a`. -/
theorem Double.lt_false_iff_le (a b : Double) (ha : a.isNaN = false) (hb : b.isNaN = false) :
    Double.lt a b = false ↔ Double.le b a = true := by
  cases a <;> cases b <;> simp_all [Double.lt, Double.le, Double.isNaN]

theorem Double.lt_trans_le (a b c : Double) (h1 : Double.lt a b = true)
    (h2 : Double.le b c = true) : Double.lt a c = true := by
  cases a <;> cases b <;> cases c <;> simp_all [Double.lt, Double.le]
  exact h1.trans_le h2

theorem Double.isNaN_of_lt (a b : Double) (h : Double.lt a b = true) :
    a.isNaN = false ∧ b.isNaN = false := by
  cases a <;> cases b <;> simp_all [Double.lt, Double.isNaN]

theorem Double.isNaN_of_le (a b : Double) (h : Double.le a b = true) :
    a.isNaN = false ∧ b.isNaN = false := by
  cases a <;> cases b <;> simp_all [Double.le, Double.isNaN]

/-! ## The range filter -/

/-- C1: for all bounds `tmin`, `tmax` and every Solution `s`, `t_filter(tmin, tmax)(s)` returns
true (reject) exactly when `s.t < tmin` or `s.t > tmax`, and false otherwise. -/
theorem t_filter_call_iff (tmin tmax : Double) (s : Solution) :
    ((t_filter.mk tmin tmax).call s = true ↔
        (Double.lt s.t tmin = true ∨ Double.gt s.t tmax = true)) ∧
    ((t_filter.mk tmin tmax).call s = false ↔
        ¬ (Double.lt s.t tmin = true ∨ Double.gt s.t tmax = true)) := by
  simp [t_filter.call, t_filter.run]

/-- C2, as the claim states it, fails: `t_filter(0, 2)` keeps the Solution `sol_nan`, whose `t`
is a NaN, and neither `0 <= t` nor `t <= 2` holds for it. -/
theorem t_filter_keeps_nan_outside_bounds :
    (t_filter.mk (Double.fin 0) (Double.fin 2)).call sol_nan = false ∧
    ¬ (Double.le (Double.fin 0) sol_nan.t = true ∧ Double.le sol_nan.t (Double.fin 2) = true) := by
  decide

/-- A Solution that the range filter keeps is within each bound that can be compared with
its `t`. -/
theorem kept_within_bounds (tmin tmax : Double) (s : Solution)
    (h : (t_filter.mk tmin tmax).call s = false) :
    (s.t.isNaN = false → tmin.isNaN = false → Double.le tmin s.t = true) ∧
    (s.t.isNaN = false → tmax.isNaN = false → Double.le s.t tmax = true) := by
  simp only [t_filter.call, t_filter.run, Bool.or_eq_false_iff, Double.gt] at h
  exact ⟨fun hs ht => (Double.lt_false_iff_le s.t tmin hs ht).mp h.1,
    fun hs ht => (Double.lt_false_iff_le tmax s.t ht hs).mp h.2⟩

/-- C2, amended: for all bounds and every Solution `s` that `t_filter(tmin, tmax)` does not
reject, `tmin <= s.t` holds when neither `s.t` nor `tmin` is a NaN, and `s.t <= tmax` holds when
neither `s.t` nor `tmax` is a NaN. -/
theorem t_filter_accept_bounds (tmin tmax : Double) (s : Solution)
    (h : (t_filter.mk tmin tmax).call s = false) :
    (s.t.isNaN = false → tmin.isNaN = false → Double.le tmin s.t = true) ∧
    (s.t.isNaN = false → tmax.isNaN = false → Double.le s.t tmax = true) :=
  kept_within_bounds tmin tmax s h

/-- An accepted candidate with ordinary bounds: `t_filter(0, 2)` keeps `sol_mid`, and
`0 <= 1 <= 2`. -/
theorem t_filter_accept_bounds_witness :
    (t_filter.mk (Double.fin 0) (Double.fin 2)).call sol_mid = false ∧
    Double.le (Double.fin 0) sol_mid.t = true ∧ Double.le sol_mid.t (Double.fin 2) = true :=
  ⟨by decide,
   (t_filter_accept_bounds (Double.fin 0) (Double.fin 2) sol_mid (by decide)).1 rfl rfl,
   (t_filter_accept_bounds (Double.fin 0) (Double.fin 2) sol_mid (by decide)).2 rfl rfl⟩

/-- C3: boundary values are inclusive.  For all bounds with `tmin <= tmax`, a Solution whose `t`
equals `tmin` and a Solution whose `t` equals `tmax` are both kept by `t_filter(tmin, tmax)`. -/
theorem t_filter_boundary_kept (tmin tmax : Double) (h : Double.le tmin tmax = true)
    (s : Solution) :
    (Double.eq s.t tmin = true → (t_filter.mk tmin tmax).call s = false) ∧
    (Double.eq s.t tmax = true → (t_filter.mk tmin tmax).call s = false) := by
  obtain ⟨p, t, k⟩ := s
  constructor <;> intro he <;>
    cases t <;> cases tmin <;> cases tmax <;>
      simp_all [t_filter.call, t_filter.run, Double.lt, Double.gt, Double.le, Double.eq]

/-- Both ends of the range `[1, 3]` are kept: `sol_mid` has offset `1`, `sol_left` offset `3`. -/
theorem t_filter_boundary_kept_witness :
    Double.le (Double.fin 1) (Double.fin 3) = true ∧
    (t_filter.mk (Double.fin 1) (Double.fin 3)).call sol_mid = false ∧
    (t_filter.mk (Double.fin 1) (Double.fin 3)).call sol_left = false :=
  ⟨by decide,
   (t_filter_boundary_kept (Double.fin 1) (Double.fin 3) (by decide) sol_mid).1 (by decide),
   (t_filter_boundary_kept (Double.fin 1) (Double.fin 3) (by decide) sol_left).2 (by decide)⟩

/-- C9: an empty range rejects everything.  For all bounds with `tmin > tmax`, every Solution
whose `t` is not a NaN is rejected by `t_filter(tmin, tmax)`, and filtering a candidate list of
such Solutions leaves no survivor. -/
theorem t_filter_inverted_rejects (tmin tmax : Double) (h : Double.gt tmin tmax = true) :
    (∀ s : Solution, s.t.isNaN = false → (t_filter.mk tmin tmax).call s = true) ∧
    (∀ slns : List Solution, (∀ s ∈ slns, s.t.isNaN = false) →
      erase_remove_if (Filter.range ⟨tmin, tmax⟩) slns = []) := by
  have key : ∀ s : Solution, s.t.isNaN = false → (t_filter.mk tmin tmax).call s = true := by
    intro s hs
    obtain ⟨p, t, k⟩ := s
    cases t <;> cases tmin <;> cases tmax <;>
      simp_all [t_filter.call, t_filter.run, Double.lt, Double.gt, Double.isNaN]
    rename_i x a b
    by_contra hc
    push_neg at hc
    exact absurd (lt_of_le_of_lt (hc.1.trans hc.2) h) (lt_irrefl _)
  refine ⟨key, fun slns hall => ?_⟩
  simp only [erase_remove_if, List.filter_eq_nil_iff]
  intro s hs
  simp [Filter.call, key s (hall s hs)]

/-- With the inverted bounds `(2, 0)` neither `sol_mid` nor `sol_left` survives. -/
theorem t_filter_inverted_rejects_witness :
    Double.gt (Double.fin 2) (Double.fin 0) = true ∧
    erase_remove_if (Filter.range ⟨Double.fin 2, Double.fin 0⟩) [sol_mid, sol_left] = [] :=
  ⟨by decide,
   (t_filter_inverted_rejects (Double.fin 2) (Double.fin 0) (by decide)).2 [sol_mid, sol_left]
     (by decide)⟩

/-- C10: a Solution whose `t` is a NaN is never rejected by `t_filter`, although
`tmin <= t <= tmax` does not hold for it; and a bound that is a NaN never rejects, so the verdict
is then the comparison against the other bound alone. -/
theorem t_filter_nan (tmin tmax : Double) (s : Solution) :
    (s.t.isNaN = true → (t_filter.mk tmin tmax).call s = false ∧
      Double.le tmin s.t = false ∧ Double.le s.t tmax = false) ∧
    (tmin.isNaN = true → Double.lt s.t tmin = false ∧
      (t_filter.mk tmin tmax).call s = Double.gt s.t tmax) ∧
    (tmax.isNaN = true → Double.gt s.t tmax = false ∧
      (t_filter.mk tmin tmax).call s = Double.lt s.t tmin) := by
  obtain ⟨p, t, k⟩ := s
  refine ⟨fun h => ?_, fun h => ?_, fun h => ?_⟩
  · cases t <;> simp [Double.isNaN] at h
    simp [t_filter.call, t_filter.run, Double.gt, Double.lt_nan_left, Double.lt_nan_right,
      Double.le_nan_left, Double.le_nan_right]
  · cases tmin <;> simp [Double.isNaN] at h
    simp [t_filter.call, t_filter.run, Double.lt_nan_right]
  · cases tmax <;> simp [Double.isNaN] at h
    simp [t_filter.call, t_filter.run, Double.gt, Double.lt_nan_left]

/-- The NaN candidate `sol_nan` survives the empty range `(2, 0)`, and a NaN lower bound lets
`sol_left`, of offset `3`, be judged by the upper bound alone. -/
theorem t_filter_nan_witness :
    (t_filter.mk (Double.fin 2) (Double.fin 0)).call sol_nan = false ∧
    (t_filter.mk Double.nan (Double.fin 5)).call sol_left = Double.gt sol_left.t (Double.fin 5) :=
  ⟨((t_filter_nan (Double.fin 2) (Double.fin 0) sol_nan).1 rfl).1,
   ((t_filter_nan Double.nan (Double.fin 5) sol_left).2.1 rfl).2⟩

/-! ## The region filter -/

/-- C4: for every site and every Solution `s`, `in_region_filter(site)(s)` returns true (reject)
exactly when `site.in_region(s.p)` is false, and the verdict is the same for every Solution with
the point `s.p`, whatever its `t` and `k3`. -/
theorem in_region_filter_call_iff (site : Site) (s : Solution) :
    ((in_region_filter.mk site).call s = true ↔ site.in_region s.p = false) ∧
    (∀ t k3 : Double, (in_region_filter.mk site).call ⟨s.p, t, k3⟩ =
      (in_region_filter.mk site).call s) := by
  simp [in_region_filter.call, in_region_filter.run]

/-! ## Order of the filters -/

theorem erase_remove_if_eq_filter (f : Filter) (slns : List Solution) :
    erase_remove_if f slns = slns.filter (fun s => !f.call s) := rfl

/-- A sequence of filters keeps exactly the Solutions that none of them rejects, in the order
of the candidate list. -/
theorem apply_filters_eq_filter (fs : List Filter) (slns : List Solution) :
    apply_filters fs slns = slns.filter (fun s => fs.all (fun f => !f.call s)) := by
  induction fs generalizing slns with
  | nil => simp [apply_filters]
  | cons f fs ih =>
    have step : apply_filters (f :: fs) slns = apply_filters fs (erase_remove_if f slns) := rfl
    rw [step, ih, erase_remove_if_eq_filter, List.filter_filter]
    apply List.filter_congr
    intro s _
    simp [Bool.and_comm]

theorem all_keep_of_perm {fs gs : List Filter} (h : fs.Perm gs) (s : Solution) :
    fs.all (fun f => !f.call s) = gs.all (fun f => !f.call s) := by
  rw [Bool.eq_iff_iff]
  simp only [List.all_eq_true]
  exact ⟨fun hf g hg => hf g (h.mem_iff.mpr hg), fun hg f hf => hg f (h.mem_iff.mp hf)⟩

/-- C5: the order of filter application does not change the survivors.  For every candidate
list, all bounds and every sequence of sites, the filters `t_filter(tmin, tmax)` and
`in_region_filter` of each site, applied in any other order `fs`, leave the same Solutions in
the same relative order, which is their order in the candidate list. -/
theorem apply_filters_perm (tmin tmax : Double) (sites : List Site) (slns : List Solution)
    (fs : List Filter) (h : fs.Perm (filter_sequence tmin tmax sites)) :
    apply_filters fs slns = apply_filters (filter_sequence tmin tmax sites) slns ∧
    (apply_filters fs slns).Sublist slns := by
  rw [apply_filters_eq_filter, apply_filters_eq_filter]
  refine ⟨?_, List.filter_sublist _⟩
  apply List.filter_congr
  intro s _
  exact all_keep_of_perm h s

/-- The range filter applied after the region filter of `site_right` instead of before it:
the same candidates survive. -/
theorem apply_filters_perm_witness :
    apply_filters [Filter.region ⟨site_right⟩, Filter.range ⟨Double.fin 0, Double.fin 2⟩]
        [sol_left, sol_mid, sol_nan] =
      apply_filters (filter_sequence (Double.fin 0) (Double.fin 2) [site_right])
        [sol_left, sol_mid, sol_nan] ∧
    (apply_filters [Filter.region ⟨site_right⟩, Filter.range ⟨Double.fin 0, Double.fin 2⟩]
        [sol_left, sol_mid, sol_nan]).Sublist [sol_left, sol_mid, sol_nan] :=
  apply_filters_perm (Double.fin 0) (Double.fin 2) [site_right] [sol_left, sol_mid, sol_nan]
    [Filter.region ⟨site_right⟩, Filter.range ⟨Double.fin 0, Double.fin 2⟩]
    (List.Perm.swap _ _ [])

/-! ## Purity of the filters -/

theorem t_filter_after_eq (f : t_filter) (s : Solution) (n : Nat) : f.after s n = (f, s) := by
  induction n with
  | zero => rfl
  | succ n ih => simp [t_filter.after, ih, t_filter.run]

theorem in_region_filter_after_eq (f : in_region_filter) (s : Solution) (n : Nat) :
    f.after s n = (f, s) := by
  induction n with
  | zero => rfl
  | succ n ih => simp [in_region_filter.after, ih, in_region_filter.run]

/-- C6: both filters are pure predicates.  One application leaves the stored parameters
(`tmin_`, `tmax_`, `site_`) and the fields `p`, `t`, `k3` of the Solution unchanged, and after
any number `n` of applications the filter and the Solution are still the same and the next
application gives the same verdict as the first. -/
theorem filters_pure (f : t_filter) (g : in_region_filter) (s : Solution) :
    ((f.run s).2.1.tmin_ = f.tmin_ ∧ (f.run s).2.1.tmax_ = f.tmax_ ∧
      (f.run s).2.2.p = s.p ∧ (f.run s).2.2.t = s.t ∧ (f.run s).2.2.k3 = s.k3) ∧
    ((g.run s).2.1.site_ = g.site_ ∧
      (g.run s).2.2.p = s.p ∧ (g.run s).2.2.t = s.t ∧ (g.run s).2.2.k3 = s.k3) ∧
    (∀ n : Nat, f.after s n = (f, s) ∧ (f.after s n).1.call (f.after s n).2 = f.call s) ∧
    (∀ n : Nat, g.after s n = (g, s) ∧ (g.after s n).1.call (g.after s n).2 = g.call s) := by
  refine ⟨⟨rfl, rfl, rfl, rfl, rfl⟩, ⟨rfl, rfl, rfl, rfl⟩, fun n => ?_, fun n => ?_⟩
  · rw [t_filter_after_eq]; exact ⟨rfl, rfl⟩
  · rw [in_region_filter_after_eq]; exact ⟨rfl, rfl⟩

/-! ## The observers of the positioner -/

/-- C7: the query operations are read-only observers.  For every positioner, `get_k3()` returns
the field `k3`, `get_stat()` returns the sequence `errstat`, and after either call every field
(`ppp_solver`, `vd`, `t_min`, `t_max`, `k3`, `edge`, `errstat`) is what it was. -/
theorem observers_read_only {VD E : Type} (vp : VertexPositioner VD E) :
    (vp.get_k3.1 = vp.k3 ∧ vp.get_stat.1 = vp.errstat) ∧
    (vp.get_k3.2 = vp ∧ vp.get_stat.2 = vp) ∧
    (vp.get_k3.2.ppp_solver = vp.ppp_solver ∧ vp.get_k3.2.vd = vp.vd ∧
      vp.get_k3.2.t_min = vp.t_min ∧ vp.get_k3.2.t_max = vp.t_max ∧
      vp.get_k3.2.k3 = vp.k3 ∧ vp.get_k3.2.edge = vp.edge ∧
      vp.get_k3.2.errstat = vp.errstat) ∧
    (vp.get_stat.2.ppp_solver = vp.ppp_solver ∧ vp.get_stat.2.vd = vp.vd ∧
      vp.get_stat.2.t_min = vp.t_min ∧ vp.get_stat.2.t_max = vp.t_max ∧
      vp.get_stat.2.k3 = vp.k3 ∧ vp.get_stat.2.edge = vp.edge ∧
      vp.get_stat.2.errstat = vp.errstat) :=
  ⟨⟨rfl, rfl⟩, ⟨rfl, rfl⟩, ⟨rfl, rfl, rfl, rfl, rfl, rfl, rfl⟩,
    ⟨rfl, rfl, rfl, rfl, rfl, rfl, rfl⟩⟩

end ovd
